import Mathlib

/-
Verification of the lane-tracking engine of the Advanced-Lane-Lines
notebook (src/Advanced_Lane_Lines.ipynb).

The development shallowly embeds, over exact rational arithmetic:
  * the Line class (per-side tracking state; the Python __init__ sets the
    not-yet-computed fields to None and the code never reads them before a
    branch has assigned them, so they are modelled here by plain fields
    with inert initial values; the purely diagnostic fields allx/ally,
    which hold raw pixel arrays and feed no decision, are omitted);
  * the per-frame update logic of find_lanes for one lane side (the seed,
    accept and reject branches), where the right lane's validation base
    position evaluates the new fit at y_eval = height - 1 and the left
    lane's at the hardcoded constant 720.0;
  * the tail of find_lanes that computes the reported lane-center offset
    and assigns it to both lanes' line_base_pos;
  * the curvature formula's denominator and base term;
  * the sliding-window pixel search (window bounds, per-band pixel
    collection, recentering, cluster accumulation).

The relative-difference test of the source is
  np.linalg.norm(diffs) / np.linalg.norm(bestx) < max_rel_fitx.
Both norms are nonnegative, so for a nonzero bestx the test is equivalent
to the square-free comparison
  sqNorm diffs < max_rel_fitx ^ 2 * sqNorm bestx,
and for bestx with zero norm both sides reject (the float quotient is
nan or inf, which fails the <; the squared comparison is then
strict-below-zero, which also fails).  The embedding uses the squared
comparison so that the test stays inside the rationals.
-/

namespace ALF

/-- Quadratic fit coefficients (a, b, c) with x = a*y^2 + b*y + c,
as produced by np.polyfit(y, x, 2). -/
structure Fit where
  a : ℚ
  b : ℚ
  c : ℚ
deriving DecidableEq, Repr

/-- A sampled curve: the x values of a fit evaluated at integer rows
(the arrays left_fitx / right_fitx / bestx of the source). -/
abbrev Curve := List ℚ

/-- Evaluate a quadratic fit at a row y, as in
fit[0]*y**2 + fit[1]*y + fit[2]. -/
def polyEval (f : Fit) (y : ℚ) : ℚ :=
  f.a * y ^ 2 + f.b * y + f.c

/-- ploty-evaluation of a fit: x values at every integer row 0 .. h-1
(left_fitx = left_fit[0]*ploty**2 + left_fit[1]*ploty + left_fit[2]). -/
def sampleCurve (f : Fit) (h : Nat) : Curve :=
  (List.range h).map (fun (y : Nat) => polyEval f (y : ℚ))

/-- n = 15, the bounded-history capacity (deque maxlen in Line.__init__). -/
def n : Nat := 15

/-- max_distance = 2.8 of the source. -/
def max_distance : ℚ := 14 / 5

/-- max_rel_fitx = 0.15 of the source. -/
def max_rel_fitx : ℚ := 3 / 20

/-- n_avg = 8 of the source: averaging window used on rejection. -/
def n_avg : Nat := 8

/-- ym_per_pix = 30/720, meters per pixel vertically. -/
def ym_per_pix : ℚ := 30 / 720

/-- xm_per_pix = 3.7/700, meters per pixel horizontally. -/
def xm_per_pix : ℚ := 37 / 7000

/-- image_center = 1280/2.0 of the source. -/
def image_center : ℚ := 1280 / 2

/-- Per-side tracking state (the Line class). detected, recent_xfitted,
bestx, recent_fits, best_fit, current_fit, radius_of_curvature,
line_base_pos and diffs follow Line.__init__; fields the Python code
initializes to None are given inert defaults, since every read of them in
find_lanes happens after an assignment. -/
structure Line where
  detected : Bool
  recent_xfitted : List Curve
  bestx : Curve
  recent_fits : List Fit
  best_fit : Fit
  current_fit : Fit
  radius_of_curvature : ℚ
  line_base_pos : ℚ
  diffs : Curve
deriving DecidableEq, Repr

/-- The freshly constructed Line (Line.__init__): empty history,
detected = False, diffs = np.array([0,0,0]). -/
def Line.init : Line where
  detected := false
  recent_xfitted := []
  bestx := []
  recent_fits := []
  best_fit := ⟨0, 0, 0⟩
  current_fit := ⟨0, 0, 0⟩
  radius_of_curvature := 0
  line_base_pos := 0
  diffs := [0, 0, 0]

/-- Append to a deque of maxlen n: when full, the oldest (leftmost)
element is evicted. -/
def dequePush (xs : List α) (x : α) : List α :=
  if xs.length < n then xs ++ [x] else xs.tail ++ [x]

/-- The numpy slice arr[-k:]: the last min(k, length) entries. -/
def lastN (k : Nat) (xs : List α) : List α :=
  xs.drop (xs.length - k)

/-- np.average(fits, 0): componentwise arithmetic mean of a list of fit
coefficient triples. -/
def meanFit (fs : List Fit) : Fit :=
  ⟨(fs.map Fit.a).sum / fs.length,
   (fs.map Fit.b).sum / fs.length,
   (fs.map Fit.c).sum / fs.length⟩

/-- np.average(curves, 0): elementwise arithmetic mean of a list of
equal-length sampled curves. -/
def meanCurve (cs : List Curve) : Curve :=
  match cs with
  | [] => []
  | c0 :: _ => (List.range c0.length).map
      (fun i => (cs.map (fun c => c.getD i 0)).sum / cs.length)

/-- Squared euclidean norm of a sampled-curve vector. -/
def sqNorm (v : Curve) : ℚ :=
  (v.map (fun q => q * q)).sum

/-- Pointwise difference newCurve - bestx (the diffs assignment). -/
def curveDiff (c b : Curve) : Curve :=
  List.zipWith (fun p q => p - q) c b

/-- The validation base position of the source:
(fit[0]*y**2 + fit[1]*y + fit[2] - 640.0) * 3.7/600.0.
Note the 3.7/600.0 of the source, not xm_per_pix = 3.7/700. -/
def validBasePos (f : Fit) (y : ℚ) : ℚ :=
  (polyEval f y - 640) * (37 / 6000)

/-- The acceptance test of the tracking branch:
abs(line_base_pos) <= max_distance and rel_diff < max_rel_fitx,
with the relative-difference comparison in its squared form (see the
header comment). -/
def accepts (t : Line) (newFit : Fit) (newCurve : Curve) (y_eval : ℚ) : Bool :=
  decide (|validBasePos newFit y_eval| ≤ max_distance ∧
    sqNorm (curveDiff newCurve t.bestx) < max_rel_fitx ^ 2 * sqNorm t.bestx)

/-- One per-side update of find_lanes, parameterized by the row y_eval at
which the validation base position evaluates the new fit (the source
passes y_eval for the right lane and the literal 720.0 for the left one).
Branches, in source order: seed when the history is empty; otherwise
assign line_base_pos and diffs, then accept (push onto both deques,
averages over the whole retained history, current_fit = new fit) or
reject (pop the most recent element of both deques, then, when entries
remain, averages over the last n_avg entries and current_fit = best_fit). -/
def updateLine (t : Line) (newFit : Fit) (newCurve : Curve) (y_eval : ℚ) : Line :=
  if t.recent_fits.length = 0 then
    { t with detected := true
             recent_xfitted := dequePush t.recent_xfitted newCurve
             recent_fits := dequePush t.recent_fits newFit
             current_fit := newFit
             best_fit := newFit
             bestx := newCurve }
  else if accepts t newFit newCurve y_eval then
    { t with detected := true
             line_base_pos := validBasePos newFit y_eval
             diffs := curveDiff newCurve t.bestx
             recent_xfitted := dequePush t.recent_xfitted newCurve
             bestx := meanCurve (dequePush t.recent_xfitted newCurve)
             recent_fits := dequePush t.recent_fits newFit
             best_fit := meanFit (dequePush t.recent_fits newFit)
             current_fit := newFit }
  else if 0 < t.recent_fits.dropLast.length then
    { t with detected := false
             line_base_pos := validBasePos newFit y_eval
             diffs := curveDiff newCurve t.bestx
             recent_fits := t.recent_fits.dropLast
             recent_xfitted := t.recent_xfitted.dropLast
             bestx := meanCurve (lastN n_avg t.recent_xfitted.dropLast)
             best_fit := meanFit (lastN n_avg t.recent_fits.dropLast)
             current_fit := meanFit (lastN n_avg t.recent_fits.dropLast) }
  else
    { t with detected := false
             line_base_pos := validBasePos newFit y_eval
             diffs := curveDiff newCurve t.bestx
             recent_fits := t.recent_fits.dropLast
             recent_xfitted := t.recent_xfitted.dropLast }

/-- The right-lane update: validation base position evaluated at y_eval
(= np.max(ploty) = height - 1 at the call site). -/
def updateRightLane (t : Line) (newFit : Fit) (newCurve : Curve) (y_eval : ℚ) : Line :=
  updateLine t newFit newCurve y_eval

/-- The left-lane update: validation base position evaluated at the
hardcoded 720.0 of the source. -/
def updateLeftLane (t : Line) (newFit : Fit) (newCurve : Curve) : Line :=
  updateLine t newFit newCurve 720

/-- y_eval = np.max(ploty) for a mask of height h: the row h - 1. -/
def yEvalOf (h : Nat) : ℚ := (h : ℚ) - 1

/-- Fold a sequence of per-frame inputs (fit, curve, y_eval) through the
per-side update. -/
def applyUpdates (t : Line) (us : List (Fit × Curve × ℚ)) : Line :=
  us.foldl (fun s u => updateLine s u.1 u.2.1 u.2.2) t

/-- lane_center = (left_fitx[h-1] + right_fitx[h-1]) / 2.0 of the source,
on already-sampled curves. -/
def laneCenter (lfx rfx : Curve) (i : Nat) : ℚ :=
  (lfx.getD i 0 + rfx.getD i 0) / 2

/-- The tail of find_lanes: resample both best fits over ploty, compute
line_base_pos = (lane_center - image_center) * xm_per_pix at the bottom
row, and assign that single value to both lanes. -/
def finishBasePos (l r : Line) (h : Nat) : Line × Line :=
  ({ l with line_base_pos :=
      (laneCenter (sampleCurve l.best_fit h) (sampleCurve r.best_fit h) (h - 1)
        - image_center) * xm_per_pix },
   { r with line_base_pos :=
      (laneCenter (sampleCurve l.best_fit h) (sampleCurve r.best_fit h) (h - 1)
        - image_center) * xm_per_pix })

/-- Denominator of the curvature formula of the source:
np.absolute(2 * fit_cr[0]). -/
def curveradDenom (a : ℚ) : ℚ := |2 * a|

/-- The base (1 + (2*a*y + b)**2) of the curvature numerator, whose 1.5
power the source divides by the denominator above. -/
def curveradBaseTerm (a b y : ℚ) : ℚ := 1 + (2 * a * y + b) ^ 2

/-
The sliding-window search of find_lanes, for one side.  A mask pixel is a
(row, column) pair of naturals (an entry of nonzeroy / nonzerox); window
bounds are Python ints, modelled by ZZ since the lower x bound
current - margin can be negative.
-/

/-- Membership of a pixel in a window, as in
(nonzeroy >= win_y_low) & (nonzeroy < win_y_high) &
(nonzerox >= win_x_low) & (nonzerox < win_x_high). -/
def inWindow (p : Nat × Nat) (ylow yhigh xlow xhigh : ℤ) : Bool :=
  decide (ylow ≤ (p.1 : ℤ) ∧ (p.1 : ℤ) < yhigh ∧
    xlow ≤ (p.2 : ℤ) ∧ (p.2 : ℤ) < xhigh)

/-- The pixels of the mask falling inside one window (good_left_inds /
good_right_inds). -/
def goodInds (px : List (Nat × Nat)) (ylow yhigh xlow xhigh : ℤ) :
    List (Nat × Nat) :=
  px.filter (fun p => inWindow p ylow yhigh xlow xhigh)

/-- np.int(np.mean(xs)) for the (nonnegative) x coordinates of a pixel
list: the truncated mean, i.e. natural division of their sum by the
count. -/
def meanX (ps : List (Nat × Nat)) : Nat :=
  (ps.map Prod.snd).sum / ps.length

/-- One band of the sliding-window loop for one side: collect the pixels
inside [current - margin, current + margin] of the band, and recenter the
window on their truncated mean x exactly when their count strictly
exceeds minpix. -/
def bandStep (px : List (Nat × Nat)) (ylow yhigh c : ℤ)
    (margin minpix : Nat) : List (Nat × Nat) × ℤ :=
  (goodInds px ylow yhigh (c - margin) (c + margin),
   if minpix < (goodInds px ylow yhigh (c - margin) (c + margin)).length
   then ((meanX (goodInds px ylow yhigh (c - margin) (c + margin)) : ℤ))
   else c)

/-- The window loop over the list of band indices, threading the current
center and concatenating every band's collected pixels (the source
appends good_..._inds unconditionally and concatenates at the end). -/
def windowsLoop (px : List (Nat × Nat)) (hh wh : ℤ) (margin minpix : Nat) :
    List Nat → ℤ → List (Nat × Nat) × ℤ
  | [], c => ([], c)
  | w :: ws, c =>
      (((bandStep px (hh - ((w : ℤ) + 1) * wh) (hh - (w : ℤ) * wh) c
          margin minpix).1
        ++ (windowsLoop px hh wh margin minpix ws
          (bandStep px (hh - ((w : ℤ) + 1) * wh) (hh - (w : ℤ) * wh) c
            margin minpix).2).1),
       (windowsLoop px hh wh margin minpix ws
         (bandStep px (hh - ((w : ℤ) + 1) * wh) (hh - (w : ℤ) * wh) c
           margin minpix).2).2)

/-- The sliding-window search for one side of a mask of height h:
window_height = np.int(h / nwindows), bands taken bottom-to-top for
window = 0 .. nwindows-1, starting at the histogram seed c0. -/
def runWindows (px : List (Nat × Nat)) (h nwindows margin minpix : Nat)
    (c0 : ℤ) : List (Nat × Nat) × ℤ :=
  windowsLoop px (h : ℤ) ((h / nwindows : Nat) : ℤ) margin minpix
    (List.range nwindows) c0

/-
Concrete states and inputs used by the witnesses and counterexamples.
-/

/-- A constant fit at column 600. -/
def fA : Fit := ⟨0, 0, 600⟩

/-- A constant fit at column 640: its validation base position is 0 at
every evaluation row, so the distance check always passes for it. -/
def fMid : Fit := ⟨0, 0, 640⟩

/-- A constant fit at column 740. -/
def fFar : Fit := ⟨0, 0, 740⟩

/-- The linear fit x = y. -/
def fLin : Fit := ⟨0, 1, 0⟩

/-- A first fit whose validation base position is exactly 5 meters
(polyEval = 640 + 30000/37 at every row, and
(30000/37) * (37/6000) = 5 > max_distance). -/
def fBig : Fit := ⟨0, 0, 640 + 30000 / 37⟩

/-- A tracking state holding exactly one accepted fit, with bestx [100]. -/
def tA : Line :=
  { Line.init with
    detected := true
    recent_fits := [fA]
    recent_xfitted := [[100]]
    bestx := [100]
    best_fit := fA
    current_fit := fA }

/-- A tracking state holding two accepted fits (columns 0 and 100), with
bestx and best_fit the means over the two. -/
def tB : Line :=
  { Line.init with
    detected := true
    recent_fits := [⟨0, 0, 0⟩, ⟨0, 0, 100⟩]
    recent_xfitted := [[0], [100]]
    bestx := [50]
    best_fit := ⟨0, 0, 50⟩
    current_fit := ⟨0, 0, 100⟩ }

/-- A tracking state whose history is at full capacity n = 15. -/
def tFull : Line :=
  { Line.init with
    detected := true
    recent_fits := List.replicate 15 fA
    recent_xfitted := List.replicate 15 [100]
    bestx := [100]
    best_fit := fA
    current_fit := fA }

/-- A Line whose best_fit is the given fit (for the offset witnesses). -/
def lineWith (f : Fit) : Line :=
  { Line.init with best_fit := f }

/-- A one-pixel mask: a single on-pixel at row 8, column 5. -/
def pxC9 : List (Nat × Nat) := [(8, 5)]

end ALF

/-
Helper lemmas: branch characterizations of updateLine, deque length
bounds, and concrete acceptance facts shared by the witnesses and
counterexamples.
-/

namespace ALF

theorem length_ne_zero_of_ne_nil (xs : List α) (h : xs ≠ []) : ¬ xs.length = 0 :=
  fun h0 => h (List.length_eq_zero.mp h0)

theorem updateLine_tracking_lbp (t : Line) (f : Fit) (c : Curve) (y : ℚ)
    (hne : t.recent_fits ≠ []) :
    (updateLine t f c y).line_base_pos = validBasePos f y := by
  have h0 := length_ne_zero_of_ne_nil _ hne
  unfold updateLine
  rw [if_neg h0]
  split
  · rfl
  · split <;> rfl

theorem updateLine_reject_fits (t : Line) (f : Fit) (c : Curve) (y : ℚ)
    (hne : t.recent_fits ≠ []) (hacc : accepts t f c y = false) :
    (updateLine t f c y).recent_fits = t.recent_fits.dropLast ∧
    (updateLine t f c y).recent_xfitted = t.recent_xfitted.dropLast := by
  have h0 := length_ne_zero_of_ne_nil _ hne
  unfold updateLine
  rw [if_neg h0, hacc, if_neg Bool.false_ne_true]
  split <;> exact ⟨rfl, rfl⟩

theorem updateLine_reject_means (t : Line) (f : Fit) (c : Curve) (y : ℚ)
    (hne : t.recent_fits ≠ []) (hacc : accepts t f c y = false)
    (hrem : t.recent_fits.dropLast ≠ []) :
    (updateLine t f c y).best_fit = meanFit (lastN n_avg t.recent_fits.dropLast) ∧
    (updateLine t f c y).bestx = meanCurve (lastN n_avg t.recent_xfitted.dropLast) ∧
    (updateLine t f c y).current_fit = meanFit (lastN n_avg t.recent_fits.dropLast) := by
  have h0 := length_ne_zero_of_ne_nil _ hne
  have hpos : 0 < t.recent_fits.dropLast.length := List.length_pos.mpr hrem
  unfold updateLine
  rw [if_neg h0, hacc, if_neg Bool.false_ne_true, if_pos hpos]
  exact ⟨rfl, rfl, rfl⟩

theorem updateLine_reject_empty (t : Line) (f : Fit) (c : Curve) (y : ℚ)
    (hne : t.recent_fits ≠ []) (hacc : accepts t f c y = false)
    (hrem : t.recent_fits.dropLast = []) :
    (updateLine t f c y).best_fit = t.best_fit ∧
    (updateLine t f c y).bestx = t.bestx ∧
    (updateLine t f c y).current_fit = t.current_fit := by
  have h0 := length_ne_zero_of_ne_nil _ hne
  have hpos : ¬ 0 < t.recent_fits.dropLast.length := by simp [hrem]
  unfold updateLine
  rw [if_neg h0, hacc, if_neg Bool.false_ne_true, if_neg hpos]
  exact ⟨rfl, rfl, rfl⟩

theorem updateLine_seed (t : Line) (f : Fit) (c : Curve) (y : ℚ)
    (hf : t.recent_fits = []) :
    (updateLine t f c y).detected = true ∧
    (updateLine t f c y).recent_fits = [f] ∧
    (updateLine t f c y).recent_xfitted = dequePush t.recent_xfitted c ∧
    (updateLine t f c y).best_fit = f ∧
    (updateLine t f c y).bestx = c ∧
    (updateLine t f c y).current_fit = f := by
  have h0 : t.recent_fits.length = 0 := by simp [hf]
  unfold updateLine
  rw [if_pos h0]
  refine ⟨rfl, ?_, rfl, rfl, rfl, rfl⟩
  simp [dequePush, hf, n]

theorem updateLine_accept (t : Line) (f : Fit) (c : Curve) (y : ℚ)
    (hne : t.recent_fits ≠ []) (hacc : accepts t f c y = true) :
    (updateLine t f c y).detected = true ∧
    (updateLine t f c y).recent_fits = dequePush t.recent_fits f ∧
    (updateLine t f c y).recent_xfitted = dequePush t.recent_xfitted c ∧
    (updateLine t f c y).best_fit = meanFit (dequePush t.recent_fits f) ∧
    (updateLine t f c y).bestx = meanCurve (dequePush t.recent_xfitted c) ∧
    (updateLine t f c y).current_fit = f := by
  have h0 := length_ne_zero_of_ne_nil _ hne
  unfold updateLine
  rw [if_neg h0, hacc, if_pos rfl]
  exact ⟨rfl, rfl, rfl, rfl, rfl, rfl⟩

theorem accepts_tA_false : accepts tA fMid [1000] 719 = false := by
  norm_num [accepts, validBasePos, polyEval, sqNorm, curveDiff,
    max_distance, max_rel_fitx, tA, fA, fMid, Line.init]

theorem accepts_tB_false : accepts tB fMid [1000] 0 = false := by
  norm_num [accepts, validBasePos, polyEval, sqNorm, curveDiff,
    max_distance, max_rel_fitx, tB, fMid, Line.init]

theorem accepts_tFull_true : accepts tFull fMid [100] 0 = true := by
  norm_num [accepts, validBasePos, polyEval, sqNorm, curveDiff,
    max_distance, max_rel_fitx, tFull, fA, fMid, Line.init]

theorem dequePush_length_le (xs : List α) (x : α) (h : xs.length ≤ n) :
    (dequePush xs x).length ≤ n := by
  unfold dequePush
  split
  · next hlt => simpa using hlt
  · next hge =>
    have hlen : xs.length = n := le_antisymm h (not_lt.mp hge)
    simp only [List.length_append, List.length_tail, hlen, List.length_singleton]
    simp [n]

theorem updateLine_length_le (t : Line) (f : Fit) (c : Curve) (y : ℚ)
    (hf : t.recent_fits.length ≤ n) (hx : t.recent_xfitted.length ≤ n) :
    (updateLine t f c y).recent_fits.length ≤ n ∧
    (updateLine t f c y).recent_xfitted.length ≤ n := by
  unfold updateLine
  split
  · exact ⟨dequePush_length_le _ _ hf, dequePush_length_le _ _ hx⟩
  · split
    · exact ⟨dequePush_length_le _ _ hf, dequePush_length_le _ _ hx⟩
    · split
      · simp only [List.length_dropLast]
        exact ⟨le_trans (Nat.sub_le _ _) hf, le_trans (Nat.sub_le _ _) hx⟩
      · simp only [List.length_dropLast]
        exact ⟨le_trans (Nat.sub_le _ _) hf, le_trans (Nat.sub_le _ _) hx⟩

theorem applyUpdates_length_le (us : List (Fit × Curve × ℚ)) (t : Line)
    (hf : t.recent_fits.length ≤ n) (hx : t.recent_xfitted.length ≤ n) :
    (applyUpdates t us).recent_fits.length ≤ n ∧
    (applyUpdates t us).recent_xfitted.length ≤ n := by
  induction us generalizing t with
  | nil => exact ⟨hf, hx⟩
  | cons u us ih =>
      have h := updateLine_length_le t u.1 u.2.1 u.2.2 hf hx
      simpa [applyUpdates] using ih (updateLine t u.1 u.2.1 u.2.2) h.1 h.2

theorem updateLine_accept_at_capacity (t : Line) (f : Fit) (c : Curve)
    (y : ℚ) (hlen : t.recent_fits.length = n) (hacc : accepts t f c y = true) :
    (updateLine t f c y).recent_fits = t.recent_fits.tail ++ [f] := by
  have hne : t.recent_fits ≠ [] := by
    intro h
    rw [h] at hlen
    simp [n] at hlen
  obtain ⟨-, h2, -⟩ := updateLine_accept t f c y hne hacc
  rw [h2]
  unfold dequePush
  rw [if_neg (by rw [hlen]; exact lt_irrefl n)]

theorem sampleCurve_getD (f : Fit) (h i : Nat) (hi : i < h) :
    (sampleCurve f h).getD i 0 = polyEval f (i : ℚ) := by
  rw [sampleCurve, List.getD_eq_getElem?_getD, List.getElem?_map,
    List.getElem?_range hi]
  rfl

end ALF

/-
The claims.
-/

namespace ALF

/-- C1: the claim says a rejected update leaves the history unchanged in
length and contents; in the code the reject branch pops the most recent
entry of both deques, so on the concrete one-entry tracking state tA a
rejected update changes the history length (from 1 to 0). -/
theorem C1_counterexample :
    (tA.recent_fits ≠ [] ∧ accepts tA fMid [1000] 719 = false) ∧
    ¬ ((updateLine tA fMid [1000] 719).recent_fits.length
        = tA.recent_fits.length) := by
  refine ⟨⟨by simp [tA, Line.init], accepts_tA_false⟩, ?_⟩
  simp only [updateLine, accepts_tA_false]
  simp [tA, fA, Line.init]

/-- C1 (amended): a rejected update does not add the new sample, but it
does not leave the history unchanged either: it removes the most recent
entry of both history deques, so the length decreases by one. -/
theorem C1_reject_pops_history (t : Line) (f : Fit) (c : Curve) (y : ℚ)
    (hne : t.recent_fits ≠ []) (hacc : accepts t f c y = false) :
    (updateLine t f c y).recent_fits = t.recent_fits.dropLast ∧
    (updateLine t f c y).recent_xfitted = t.recent_xfitted.dropLast ∧
    (updateLine t f c y).recent_fits.length = t.recent_fits.length - 1 := by
  obtain ⟨h1, h2⟩ := updateLine_reject_fits t f c y hne hacc
  exact ⟨h1, h2, by rw [h1, List.length_dropLast]⟩

/-- C1 witness: the amended statement at the concrete rejected update on
tA. -/
theorem C1_witness :
    (updateLine tA fMid [1000] 719).recent_fits = tA.recent_fits.dropLast ∧
    (updateLine tA fMid [1000] 719).recent_xfitted = tA.recent_xfitted.dropLast ∧
    (updateLine tA fMid [1000] 719).recent_fits.length
      = tA.recent_fits.length - 1 :=
  C1_reject_pops_history tA fMid [1000] 719 (by simp [tA, Line.init])
    accepts_tA_false

/-- C2: the claim says the post-rejection best fit is the mean over the
most recent n_avg entries of the history as it stood before the update;
on the two-entry state tB the code instead pops the most recent entry
first and averages what is left, giving a different value. -/
theorem C2_counterexample :
    (tB.recent_fits ≠ [] ∧ accepts tB fMid [1000] 0 = false) ∧
    ¬ ((updateLine tB fMid [1000] 0).best_fit
        = meanFit (lastN n_avg tB.recent_fits)) := by
  refine ⟨⟨by simp [tB, Line.init], accepts_tB_false⟩, ?_⟩
  simp only [updateLine, accepts_tB_false]
  norm_num [tB, Line.init, meanFit, lastN, n_avg, Fit.mk.injEq]

/-- C2 (amended): on a rejection that leaves the popped history nonempty,
best fit and best curve are recomputed as the mean over the most recent
n_avg = 8 entries of the history after the pop (entries 2..9 from the end
of the pre-update history, never the just-rejected fit), and current_fit
is set to that best fit. -/
theorem C2_reject_mean_after_pop (t : Line) (f : Fit) (c : Curve) (y : ℚ)
    (hne : t.recent_fits ≠ []) (hacc : accepts t f c y = false)
    (hrem : t.recent_fits.dropLast ≠ []) :
    (updateLine t f c y).best_fit
      = meanFit (lastN n_avg t.recent_fits.dropLast) ∧
    (updateLine t f c y).bestx
      = meanCurve (lastN n_avg t.recent_xfitted.dropLast) ∧
    (updateLine t f c y).current_fit = (updateLine t f c y).best_fit := by
  obtain ⟨h1, h2, h3⟩ := updateLine_reject_means t f c y hne hacc hrem
  exact ⟨h1, h2, by rw [h1, h3]⟩

/-- C2 witness: the amended statement at the concrete rejected update on
tB. -/
theorem C2_witness :
    (updateLine tB fMid [1000] 0).best_fit
      = meanFit (lastN n_avg tB.recent_fits.dropLast) ∧
    (updateLine tB fMid [1000] 0).bestx
      = meanCurve (lastN n_avg tB.recent_xfitted.dropLast) ∧
    (updateLine tB fMid [1000] 0).current_fit
      = (updateLine tB fMid [1000] 0).best_fit :=
  C2_reject_mean_after_pop tB fMid [1000] 0 (by simp [tB, Line.init])
    accepts_tB_false (by simp [tB, Line.init])

/-- C3: an update on an empty history accepts unconditionally (no
validation runs): it pushes the new sample and seeds detected, best fit,
best curve and current fit from it. -/
theorem C3_empty_history_always_accepts (t : Line) (f : Fit) (c : Curve)
    (y : ℚ) (hf : t.recent_fits = []) (hx : t.recent_xfitted = []) :
    (updateLine t f c y).detected = true ∧
    (updateLine t f c y).recent_fits = [f] ∧
    (updateLine t f c y).recent_xfitted = [c] ∧
    (updateLine t f c y).best_fit = f ∧
    (updateLine t f c y).bestx = c ∧
    (updateLine t f c y).current_fit = f := by
  obtain ⟨h1, h2, h3, h4, h5, h6⟩ := updateLine_seed t f c y hf
  refine ⟨h1, h2, ?_, h4, h5, h6⟩
  rw [h3]
  simp [dequePush, hx, n]

/-- C3 witness: the freshly constructed Line accepts a first fit whose
validation base position is 5 m (over max_distance = 2.8) and whose
relative difference test also fails: the thresholds are not consulted. -/
theorem C3_witness :
    accepts Line.init fBig [0] 719 = false ∧
    (updateLine Line.init fBig [0] 719).detected = true ∧
    (updateLine Line.init fBig [0] 719).recent_fits = [fBig] ∧
    (updateLine Line.init fBig [0] 719).best_fit = fBig := by
  refine ⟨?_,
    (C3_empty_history_always_accepts Line.init fBig [0] 719 rfl rfl).1,
    (C3_empty_history_always_accepts Line.init fBig [0] 719 rfl rfl).2.1,
    (C3_empty_history_always_accepts Line.init fBig [0] 719 rfl rfl).2.2.2.1⟩
  norm_num [accepts, validBasePos, polyEval, sqNorm, curveDiff,
    max_distance, max_rel_fitx, fBig, Line.init]

/-- C4: the claim says the validation base position is
(fit(yBottom) - imageCenterX) * xm_per_pix with xm_per_pix = 3.7/700 and
the same evaluation row for both sides; the code multiplies by 3.7/600
instead, and evaluates the right lane at y_eval = h - 1 = 719 but the
left lane at the constant 720. -/
theorem C4_counterexample :
    tA.recent_fits ≠ [] ∧
    ¬ ((updateRightLane tA fFar [100] (yEvalOf 720)).line_base_pos
        = (polyEval fFar (yEvalOf 720) - 640) * xm_per_pix) ∧
    ¬ ((updateLeftLane tA fLin [100]).line_base_pos
        = (polyEval fLin (yEvalOf 720) - 640) * (37 / 6000)) := by
  have hne : tA.recent_fits ≠ [] := by simp [tA, Line.init]
  refine ⟨hne, ?_, ?_⟩
  · simp only [updateRightLane]
    rw [updateLine_tracking_lbp tA fFar [100] _ hne]
    norm_num [validBasePos, polyEval, fFar, xm_per_pix, yEvalOf]
  · simp only [updateLeftLane]
    rw [updateLine_tracking_lbp tA fLin [100] _ hne]
    norm_num [validBasePos, polyEval, fLin, yEvalOf]

/-- C4 (amended): during a tracking-state update, the validation base
position is (fit(row) - 640) * 3.7/600, where the right lane uses
row = y_eval = h - 1 and the left lane uses the hardcoded row 720. -/
theorem C4_validation_base_pos (t : Line) (f : Fit) (c : Curve) (h : Nat)
    (hne : t.recent_fits ≠ []) :
    (updateRightLane t f c (yEvalOf h)).line_base_pos
      = (polyEval f (yEvalOf h) - 640) * (37 / 6000) ∧
    (updateLeftLane t f c).line_base_pos
      = (polyEval f 720 - 640) * (37 / 6000) :=
  ⟨updateLine_tracking_lbp t f c _ hne, updateLine_tracking_lbp t f c _ hne⟩

/-- C4 witness: on the constant-740 fit and a 720-row mask, both sides
report (740 - 640) * 3.7/600 = 37/60. -/
theorem C4_witness :
    (updateRightLane tA fFar [100] (yEvalOf 720)).line_base_pos = 37 / 60 ∧
    (updateLeftLane tA fFar [100]).line_base_pos = 37 / 60 := by
  have h := C4_validation_base_pos tA fFar [100] 720 (by simp [tA, Line.init])
  refine ⟨?_, ?_⟩
  · rw [h.1]
    norm_num [polyEval, fFar, yEvalOf]
  · rw [h.2]
    norm_num [polyEval, fFar]

/-- C6: on a straight world-space fit (a = 0) the source's curvature
expression divides by np.absolute(2*a), which is exactly zero, while its
numerator base term is 1: the code performs the division by exact zero
with no guard or sentinel. -/
theorem C6_zero_denominator :
    curveradDenom 0 = 0 ∧ curveradBaseTerm 0 0 (719 * ym_per_pix) = 1 := by
  norm_num [curveradDenom, curveradBaseTerm, ym_per_pix]

/-- C7: over any sequence of updates the history deques never exceed
n = 15 entries, and an accepted fit at full capacity evicts the oldest
(leftmost) entry while appending the new one on the right. -/
theorem C7_history_bounded :
    (∀ (t : Line) (us : List (Fit × Curve × ℚ)),
       t.recent_fits.length ≤ n → t.recent_xfitted.length ≤ n →
       (applyUpdates t us).recent_fits.length ≤ n ∧
       (applyUpdates t us).recent_xfitted.length ≤ n) ∧
    (∀ (t : Line) (f : Fit) (c : Curve) (y : ℚ),
       t.recent_fits.length = n → accepts t f c y = true →
       (updateLine t f c y).recent_fits = t.recent_fits.tail ++ [f]) :=
  ⟨fun t us hf hx => applyUpdates_length_le us t hf hx,
   fun t f c y hl ha => updateLine_accept_at_capacity t f c y hl ha⟩

/-- C7 witness: the bound from the empty initial state through one
update, and the eviction equation on the concrete full state tFull. -/
theorem C7_witness :
    (applyUpdates Line.init [(fA, [100], 0)]).recent_fits.length ≤ n ∧
    (updateLine tFull fMid [100] 0).recent_fits
      = tFull.recent_fits.tail ++ [fMid] :=
  ⟨(C7_history_bounded.1 Line.init [(fA, [100], 0)] (by simp [Line.init])
      (by simp [Line.init])).1,
   C7_history_bounded.2 tFull fMid [100] 0
     (by simp [tFull, Line.init, n]) accepts_tFull_true⟩

/-- C8: the reported offset is
((leftX(h-1) + rightX(h-1)) / 2 - imageCenterX) * xm_per_pix on the
smoothed (best-fit) curves sampled at the bottom row, with
xm_per_pix = 3.7/700 and imageCenterX = 640, and the single value is
assigned to both lanes' line_base_pos. -/
theorem C8_reported_offset (l r : Line) (h : Nat) (hp : 0 < h) :
    (finishBasePos l r h).1.line_base_pos
      = ((polyEval l.best_fit ((h - 1 : Nat) : ℚ)
          + polyEval r.best_fit ((h - 1 : Nat) : ℚ)) / 2 - 640) * (37 / 7000) ∧
    (finishBasePos l r h).2.line_base_pos
      = (finishBasePos l r h).1.line_base_pos ∧
    xm_per_pix = 37 / 7000 ∧ image_center = 640 := by
  have hi : h - 1 < h := Nat.sub_lt hp one_pos
  refine ⟨?_, rfl, rfl, by norm_num [image_center]⟩
  show (laneCenter (sampleCurve l.best_fit h) (sampleCurve r.best_fit h) (h - 1)
      - image_center) * xm_per_pix = _
  simp only [laneCenter]
  rw [sampleCurve_getD _ _ _ hi, sampleCurve_getD _ _ _ hi]
  norm_num [xm_per_pix, image_center]

/-- C8 witness: leftX = 600, rightX = 700 on a 720-row mask give lane
center 650 and offset 10 * 3.7/700 = 37/700 (about 0.0529 m, positive
meaning right of center), reported identically on both lanes. -/
theorem C8_witness :
    (finishBasePos (lineWith ⟨0, 0, 600⟩) (lineWith ⟨0, 0, 700⟩)
      720).1.line_base_pos = 37 / 700 ∧
    (finishBasePos (lineWith ⟨0, 0, 600⟩) (lineWith ⟨0, 0, 700⟩)
      720).2.line_base_pos = 37 / 700 := by
  have h := C8_reported_offset (lineWith ⟨0, 0, 600⟩) (lineWith ⟨0, 0, 700⟩)
    720 (by norm_num)
  constructor
  · rw [h.1]
    norm_num [lineWith, Line.init, polyEval]
  · rw [h.2.1, h.1]
    norm_num [lineWith, Line.init, polyEval]

/-- C9: the claim says a band whose pixel count does not exceed minpix
contributes nothing to the cluster; on the one-pixel mask pxC9 the band
holds one pixel (count 1 <= 50 = minpix), the center stays at 5, yet the
pixel is appended to the cluster, which ends as [(8, 5)]. -/
theorem C9_counterexample :
    (goodInds pxC9 8 9 (5 - 100) (5 + 100)).length ≤ 50 ∧
    (bandStep pxC9 8 9 5 100 50).2 = 5 ∧
    ¬ ((bandStep pxC9 8 9 5 100 50).1 = []) ∧
    (runWindows pxC9 9 9 100 50 5).1 = [(8, 5)] := by
  decide

/-- C9 (amended): each band recenters the window on the truncated mean x
of its collected pixels exactly when their count strictly exceeds minpix
and otherwise leaves the center unchanged; the band's collected pixels
are appended to the side's cluster in every case (so only an empty band
contributes nothing), and every pixel of the final cluster is a pixel of
the mask. -/
theorem C9_band_recenter_and_cluster :
    (∀ (px : List (Nat × Nat)) (ylow yhigh c : ℤ) (margin minpix : Nat),
       (bandStep px ylow yhigh c margin minpix).1
         = goodInds px ylow yhigh (c - margin) (c + margin) ∧
       (minpix < (goodInds px ylow yhigh (c - margin) (c + margin)).length →
         (bandStep px ylow yhigh c margin minpix).2
           = (meanX (goodInds px ylow yhigh (c - margin) (c + margin)) : ℤ)) ∧
       ((goodInds px ylow yhigh (c - margin) (c + margin)).length ≤ minpix →
         (bandStep px ylow yhigh c margin minpix).2 = c)) ∧
    (∀ (px : List (Nat × Nat)) (hb wb : ℤ) (margin minpix : Nat)
       (ws : List Nat) (c : ℤ) (p : Nat × Nat),
       p ∈ (windowsLoop px hb wb margin minpix ws c).1 → p ∈ px) := by
  constructor
  · intro px ylow yhigh c margin minpix
    refine ⟨rfl, fun hlt => ?_, fun hle => ?_⟩
    · simp [bandStep, hlt]
    · simp [bandStep, Nat.not_lt.mpr hle]
  · intro px hb wb margin minpix ws
    induction ws with
    | nil =>
        intro c p hp
        simp [windowsLoop] at hp
    | cons w ws ih =>
        intro c p hp
        simp only [windowsLoop, bandStep, goodInds, List.mem_append] at hp
        rcases hp with hp | hp
        · exact (List.mem_filter.mp hp).1
        · exact ih _ p hp

/-- C9 witness: the amended statement on the concrete one-pixel band of
pxC9 (count 1, not above minpix = 50: center unchanged), and the cluster
membership implication at the matching pixel. -/
theorem C9_witness :
    (bandStep pxC9 8 9 5 100 50).1 = goodInds pxC9 8 9 (5 - 100) (5 + 100) ∧
    (bandStep pxC9 8 9 5 100 50).2 = 5 ∧
    (8, 5) ∈ pxC9 :=
  ⟨(C9_band_recenter_and_cluster.1 pxC9 8 9 5 100 50).1,
   (C9_band_recenter_and_cluster.1 pxC9 8 9 5 100 50).2.2 (by decide),
   C9_band_recenter_and_cluster.2 pxC9 9 1 100 50 [0] 5 (8, 5) (by decide)⟩

/-- C10: a rejection on a one-entry history pops that entry, leaving the
history empty while best fit, best curve and current fit keep their
prior values; the immediately following update is then accepted
unconditionally as the empty-history seeding case. -/
theorem C10_reject_singleton_then_seed (t : Line) (f : Fit) (c : Curve)
    (y : ℚ) (f2 : Fit) (c2 : Curve) (y2 : ℚ)
    (h1 : t.recent_fits.length = 1) (h1x : t.recent_xfitted.length = 1)
    (hacc : accepts t f c y = false) :
    (updateLine t f c y).recent_fits = [] ∧
    (updateLine t f c y).recent_xfitted = [] ∧
    (updateLine t f c y).best_fit = t.best_fit ∧
    (updateLine t f c y).bestx = t.bestx ∧
    (updateLine t f c y).current_fit = t.current_fit ∧
    (updateLine (updateLine t f c y) f2 c2 y2).detected = true ∧
    (updateLine (updateLine t f c y) f2 c2 y2).recent_fits = [f2] ∧
    (updateLine (updateLine t f c y) f2 c2 y2).recent_xfitted = [c2] ∧
    (updateLine (updateLine t f c y) f2 c2 y2).best_fit = f2 ∧
    (updateLine (updateLine t f c y) f2 c2 y2).bestx = c2 ∧
    (updateLine (updateLine t f c y) f2 c2 y2).current_fit = f2 := by
  have hne : t.recent_fits ≠ [] := by
    intro h
    rw [h] at h1
    simp at h1
  have hdrop : t.recent_fits.dropLast = [] := by
    have h2 : t.recent_fits.dropLast.length = 0 := by
      rw [List.length_dropLast, h1]
    exact List.length_eq_zero.mp h2
  have hdropx : t.recent_xfitted.dropLast = [] := by
    have h2 : t.recent_xfitted.dropLast.length = 0 := by
      rw [List.length_dropLast, h1x]
    exact List.length_eq_zero.mp h2
  obtain ⟨hrf, hrx⟩ := updateLine_reject_fits t f c y hne hacc
  have hfits : (updateLine t f c y).recent_fits = [] := by rw [hrf, hdrop]
  have hxf : (updateLine t f c y).recent_xfitted = [] := by rw [hrx, hdropx]
  obtain ⟨hb, hbx, hcf⟩ := updateLine_reject_empty t f c y hne hacc hdrop
  obtain ⟨s1, s2, s3, s4, s5, s6⟩ :=
    updateLine_seed (updateLine t f c y) f2 c2 y2 hfits
  refine ⟨hfits, hxf, hb, hbx, hcf, s1, s2, ?_, s4, s5, s6⟩
  rw [s3]
  simp [dequePush, hxf, n]

/-- C10 witness: the concrete one-entry state tA with a rejected update,
then a second update seeding the tracker afresh. -/
theorem C10_witness :
    (updateLine tA fMid [1000] 719).recent_fits = [] ∧
    (updateLine tA fMid [1000] 719).best_fit = tA.best_fit ∧
    (updateLine (updateLine tA fMid [1000] 719) fA [100] 719).detected
      = true ∧
    (updateLine (updateLine tA fMid [1000] 719) fA [100] 719).recent_fits
      = [fA] := by
  have h := C10_reject_singleton_then_seed tA fMid [1000] 719 fA [100] 719
    (by simp [tA, Line.init]) (by simp [tA, Line.init]) accepts_tA_false
  exact ⟨h.1, h.2.2.1, h.2.2.2.2.2.1, h.2.2.2.2.2.2.1⟩

end ALF
